import Mathlib

/-!
Shallow embedding of the libwhisper-rs core (frame codec and session state
machine, from `src/frame.rs` and `src/session.rs`), together with theorems
settling the specification claims about it.

Modelling conventions:
* machine bytes are `Nat` (only lengths and a whitelisted tag byte matter);
* time (`chrono::DateTime<Utc>`) is `Int`, durations in minutes;
* the libsodium `box_` primitive is modelled symbolically: a secret key is a
  scalar `Nat`, `PK.gen n` is the public key of scalar `n`, `precompute`
  pairs the two scalars as an unordered pair (giving commutativity), and a
  ciphertext records its plaintext, nonce and symmetric key, with `box_open`
  succeeding exactly when nonce and key match (authenticated encryption);
* randomness (`gen_nonce`, `gen_keypair`) and the clock (`Utc::now()`) are
  explicit parameters of every operation that consumes them;
* `Option`-returning Rust code becomes `Option`, `WhisperResult` becomes
  `Except WhisperError`, and operations that can reach an
  `unwrap`/`expect` panic return an `Outcome` with a `panicked` alternative.
-/

/-- Error kinds of the library (`src/errors.rs`, `WhisperError`). -/
inductive WhisperError where
  | InvalidReadyFrame
  | InvalidHelloFrame
  | InvalidPublicKey
  | DecryptionFailed
  | InvalidWelcomeFrame
  | InvalidInitiateFrame
  | IncompleteFrame
  | InvalidSessionState
  | BadFrame
  | ExpiredSession
  | InitializationFailed
deriving DecidableEq, Repr

deriving instance DecidableEq for Except

/-- Frame type tag (`src/frame.rs`, `FrameKind`). -/
inductive FrameKind where
  | Hello
  | Welcome
  | Initiate
  | Ready
  | Request
  | Response
  | Notification
  | Termination
deriving DecidableEq, Repr

namespace FrameKind

/-- The numeric value of the tag on the wire (`FrameKind as u8`; the Rust
enum assigns Hello = 1 and the following tags 2..7, Termination = 255). -/
def toByte : FrameKind → Nat
  | .Hello => 1
  | .Welcome => 2
  | .Initiate => 3
  | .Ready => 4
  | .Request => 5
  | .Response => 6
  | .Notification => 7
  | .Termination => 255

/-- `FrameKind::from(u8)` (`src/frame.rs` lines 45-57). -/
def fromByte : Nat → Option FrameKind
  | 1 => some .Hello
  | 2 => some .Welcome
  | 3 => some .Initiate
  | 4 => some .Ready
  | 5 => some .Request
  | 6 => some .Response
  | 7 => some .Notification
  | 255 => some .Termination
  | _ => none

/-- `FrameKind::from_slice` (`src/frame.rs` lines 60-65): requires exactly
one byte, then defers to `from`. -/
def from_slice (kind : List Nat) : Option FrameKind :=
  if kind.length ≠ 1 then none
  else fromByte (kind.headD 0)

end FrameKind

namespace Wire

/-- `HEADER_SIZE` (`src/frame.rs` line 15): 32-byte id + 24-byte nonce +
1-byte kind. -/
def HEADER_SIZE : Nat := 57

/-- Byte-level view of a frame, as the codec of `src/frame.rs` sees it:
`id` is the 32 raw bytes of the public key and `nonce` the 24 raw bytes of
the nonce. -/
structure Frame where
  id : List Nat
  nonce : List Nat
  kind : FrameKind
  payload : List Nat
deriving DecidableEq, Repr

/-- `Frame::length` (`src/frame.rs` line 89). -/
def Frame.length (f : Frame) : Nat := HEADER_SIZE + f.payload.length

/-- `Frame::pack` / `pack_to_buf` (`src/frame.rs` lines 93-106): id bytes,
nonce bytes, kind byte, payload, contiguously. -/
def Frame.pack (f : Frame) : List Nat :=
  f.id ++ f.nonce ++ [f.kind.toByte] ++ f.payload

/-- `Frame::from_slice` via the nom parser `parse_frame` (`src/frame.rs`
lines 109-135): `take!(32)` then `take!(24)` then `take!(1)` then `rest`;
a short `take!` yields `Incomplete` hence `IncompleteFrame`; a `map_opt!`
returning `None` (only possible for the kind byte, since `PublicKey` and
`Nonce` `from_slice` always succeed on inputs of the exact length) yields
`Error` hence `BadFrame`. -/
def Frame.from_slice (i : List Nat) : Except WhisperError Frame :=
  if i.length < 32 then .error .IncompleteFrame
  else
    let idBytes := i.take 32
    let r1 := i.drop 32
    if r1.length < 24 then .error .IncompleteFrame
    else
      let nonceBytes := r1.take 24
      let r2 := r1.drop 24
      match r2 with
      | [] => .error .IncompleteFrame
      | b :: rest =>
        match FrameKind.fromByte b with
        | none => .error .BadFrame
        | some k => .ok ⟨idBytes, nonceBytes, k, rest⟩

end Wire

/-! ## Symbolic model of the libsodium `box_` primitive (`src/crypto.rs`
reexports; used throughout `src/session.rs`). -/

/-- A public key. `PK.gen n` is the key produced from secret scalar `n` by
`gen_keypair`; `PK.raw bs` is a key reconstituted from 32 arbitrary bytes by
`PublicKey::from_slice`. -/
inductive PK where
  | gen (n : Nat)
  | raw (bs : List Nat)
deriving DecidableEq, Repr

/-- A precomputed symmetric key (`box_::precompute` result). `dh lo hi` is
the Diffie-Hellman secret of the unordered scalar pair, stored sorted so that
commutativity of `precompute` is equality. -/
inductive SymKey where
  | dh (lo hi : Nat)
  | rawdh (bs : List Nat) (sk : Nat)
deriving DecidableEq, Repr

/-- `box_::precompute(their_pk, our_sk)`. -/
def precompute : PK → Nat → SymKey
  | .gen a, b => .dh (min a b) (max a b)
  | .raw bs, b => .rawdh bs b

/-- Plaintexts that flow through the handshake boxes. `raw` is an opaque
byte string; `keyBytes k` is the 32-byte encoding of a public key (Welcome
payload, vouch payload); `initiateBody cid vn vp bn bk` is the 104-byte
Initiate plaintext: `cid` at offsets 0..32, wire vouch nonce `vn` at
32..56, and the vouch box (itself a ciphertext with plaintext `vp`, nonce
`bn` and key `bk`) from 56 on. -/
inductive Plain where
  | raw (bs : List Nat)
  | keyBytes (k : PK)
  | initiateBody (cid : PK) (vnonce : Nat) (vplain : Plain) (vboxNonce : Nat) (vboxKey : SymKey)
deriving DecidableEq, Repr

/-- Byte length of a plaintext. A sealed box is 16 bytes (the Poly1305 tag)
longer than its plaintext, so the vouch box contributes `vplain.length + 16`
and the Initiate body is `32 + 24 + (32 + 16) = 104` bytes in the honest
run. -/
def Plain.length : Plain → Nat
  | .raw bs => bs.length
  | .keyBytes _ => 32
  | .initiateBody _ _ vp _ _ => 56 + (Plain.length vp + 16)

/-- `PublicKey::from_slice` applied to a plaintext: succeeds exactly on
32-byte inputs, reconstituting the key. -/
def Plain.from_slice32 : Plain → Option PK
  | .keyBytes k => some k
  | .raw bs => if bs.length = 32 then some (.raw bs) else none
  | .initiateBody _ _ _ _ _ => none

/-- An authenticated ciphertext: the symbolic record of what was sealed,
under which nonce and which symmetric key. -/
structure Cipher where
  plain : Plain
  nonce : Nat
  key : SymKey
deriving DecidableEq, Repr

/-- `box_::seal(plaintext, nonce, their_pk, our_sk)`. (Named `box_seal`
because `seal` is a reserved word here.) -/
def box_seal (p : Plain) (n : Nat) (their_pk : PK) (our_sk : Nat) : Cipher :=
  ⟨p, n, precompute their_pk our_sk⟩

/-- `box_::open(ciphertext, nonce, their_pk, our_sk)`: authenticated
decryption succeeds exactly when nonce and derived key both match. -/
def box_open (c : Cipher) (n : Nat) (their_pk : PK) (our_sk : Nat) : Option Plain :=
  if c.key = precompute their_pk our_sk ∧ c.nonce = n then some c.plain else none

/-- `box_::seal_precomputed(data, nonce, key)`. -/
def seal_precomputed (p : Plain) (n : Nat) (k : SymKey) : Cipher := ⟨p, n, k⟩

/-- `box_::open_precomputed(ciphertext, nonce, key)`. -/
def open_precomputed (c : Cipher) (n : Nat) (k : SymKey) : Option Plain :=
  if c.key = k ∧ c.nonce = n then some c.plain else none

/-! ## Session layer (`src/session.rs`). -/

/-- `NULL_BYTES` (`src/session.rs` line 34): 256 zero bytes. -/
def NULL_BYTES : List Nat := List.replicate 256 0

/-- `READY_PAYLOAD` (`src/session.rs` line 36): the 16 ASCII bytes of the
literal the server seals into the Ready frame. -/
def READY_PAYLOAD : List Nat :=
  [77, 121, 32, 98, 111, 100, 121, 32, 105, 115, 32, 114, 101, 97, 100, 121]

/-- `HANDSHAKE_DURATION` (`src/session.rs` line 39), in minutes. -/
def HANDSHAKE_DURATION : Int := 3

/-- `SESSION_DURATION` (`src/session.rs` line 41), in minutes. -/
def SESSION_DURATION : Int := 55

/-- `KeyPair` (`src/session.rs` lines 45-50). -/
structure KeyPair where
  public_key : PK
  secret_key : Nat
deriving DecidableEq, Repr

/-- `KeyPair::new`: `gen_keypair` always returns a matched pair; the fresh
scalar is the explicit `seed` parameter. -/
def KeyPair.new (seed : Nat) : KeyPair := ⟨PK.gen seed, seed⟩

/-- `SessionState` (`src/session.rs` lines 65-76). -/
inductive SessionState where
  | Fresh
  | Initiated
  | Ready
  | Error
deriving DecidableEq, Repr

/-- A session-layer frame (`Frame` of `src/frame.rs` as the session module
uses it): the `id` is a public key, the `nonce` a number, and the payload a
sealed box. -/
structure Frame where
  id : PK
  nonce : Nat
  kind : FrameKind
  payload : Cipher
deriving DecidableEq, Repr

/-- Result of a Rust call that may also panic (`unwrap`/`expect`). -/
inductive Outcome (α : Type) where
  | ok (a : α)
  | err (e : WhisperError)
  | panicked
deriving DecidableEq, Repr

/-- `ServerSession` (`src/session.rs` lines 80-88). -/
structure ServerSession where
  expire_at : Int
  created_at : Int
  local_session_keypair : KeyPair
  local_identity_keypair : KeyPair
  remote_session_key : PK
  remote_identity_key : Option PK
  state : SessionState
deriving DecidableEq, Repr

/-- `ClientSession` (`src/session.rs` lines 210-218). -/
structure ClientSession where
  expire_at : Int
  created_at : Int
  local_session_keypair : KeyPair
  local_identity_keypair : KeyPair
  remote_session_key : Option PK
  remote_identity_key : PK
  state : SessionState
deriving DecidableEq, Repr

/-- `EstablishedSession` (`src/session.rs` lines 330-334). -/
structure EstablishedSession where
  id : PK
  expire_at : Int
  session_secret : SymKey
deriving DecidableEq, Repr

/-- `EstablishedSession::new` (`src/session.rs` lines 339-350): the id is
the **local** session public key of whoever constructs it, and the secret is
`precompute(remote_session_key, local_session_keypair.secret_key)`. -/
def EstablishedSession.new (remote_session_key : PK) (local_session_keypair : KeyPair)
    (now : Int) : EstablishedSession :=
  { id := local_session_keypair.public_key
    expire_at := now + SESSION_DURATION
    session_secret := precompute remote_session_key local_session_keypair.secret_key }

/-- `EstablishedSession::seal_msg` (`src/session.rs` lines 351-355); the
fresh nonce is the explicit parameter `n`. -/
def EstablishedSession.seal_msg (e : EstablishedSession) (data : Plain) (n : Nat) :
    Nat × Cipher :=
  (n, seal_precomputed data n e.session_secret)

/-- `EstablishedSession::read_msg` (`src/session.rs` lines 358-364). -/
def EstablishedSession.read_msg (e : EstablishedSession) (frame : Frame) :
    Except WhisperError Plain :=
  match open_precomputed frame.payload frame.nonce e.session_secret with
  | some msg => .ok msg
  | none => .error .DecryptionFailed

/-- `Session::is_expired` for `EstablishedSession` (`src/session.rs` line
419): `self.expire_at < Utc::now()`. -/
def EstablishedSession.is_expired (e : EstablishedSession) (now : Int) : Bool :=
  e.expire_at < now

/-- `EstablishedSession::make_message` (`src/session.rs` lines 366-378). -/
def EstablishedSession.make_message (e : EstablishedSession) (data : Plain)
    (kind : FrameKind) (now : Int) (n : Nat) : Except WhisperError Frame :=
  if e.is_expired now then .error .ExpiredSession
  else
    let np := e.seal_msg data n
    .ok ⟨e.id, np.1, kind, np.2⟩

/-- `EstablishedSession::make_request` (`src/session.rs` lines 381-383). -/
def EstablishedSession.make_request (e : EstablishedSession) (data : Plain)
    (now : Int) (n : Nat) : Except WhisperError Frame :=
  e.make_message data .Request now n

/-- `EstablishedSession::make_response` (`src/session.rs` lines 386-388). -/
def EstablishedSession.make_response (e : EstablishedSession) (data : Plain)
    (now : Int) (n : Nat) : Except WhisperError Frame :=
  e.make_message data .Response now n

/-- `EstablishedSession::make_notification` (`src/session.rs` lines
391-393). -/
def EstablishedSession.make_notification (e : EstablishedSession) (data : Plain)
    (now : Int) (n : Nat) : Except WhisperError Frame :=
  e.make_message data .Notification now n

/-- `ServerSession::new` (`src/session.rs` lines 91-103); `now` is
`Utc::now()` and `sessionSeed` the scalar drawn by the internal
`KeyPair::new()`. -/
def ServerSession.new (local_identity_keypair : KeyPair) (remote_session_key : PK)
    (now : Int) (sessionSeed : Nat) : ServerSession :=
  { expire_at := now + HANDSHAKE_DURATION
    created_at := now
    local_session_keypair := KeyPair.new sessionSeed
    local_identity_keypair := local_identity_keypair
    remote_session_key := remote_session_key
    remote_identity_key := none
    state := .Fresh }

/-- `ServerSession::make_welcome` (`src/session.rs` lines 105-143); `n` is
the generated nonce. Returns the result together with the mutated session. -/
def ServerSession.make_welcome (s : ServerSession) (hello : Frame) (n : Nat) :
    Except WhisperError Frame × ServerSession :=
  if s.state ≠ .Fresh ∨ hello.kind ≠ .Hello then (.error .InvalidSessionState, s)
  else
    match box_open hello.payload hello.nonce hello.id s.local_identity_keypair.secret_key with
    | some payload =>
      if payload.length ≠ 256 then (.error .InvalidHelloFrame, { s with state := .Error })
      else
        let welcome_box := box_seal (.keyBytes s.local_session_keypair.public_key) n
          hello.id s.local_identity_keypair.secret_key
        (.ok ⟨hello.id, n, .Welcome, welcome_box⟩, { s with state := .Initiated })
    | none => (.error .DecryptionFailed, { s with state := .Error })

/-- `ServerSession::validate_initiate` (`src/session.rs` lines 147-175).
Takes `&self`, so no session is returned. The `.expect("Wrong Size Key!!!")`
on the vouch plaintext is the `panicked` alternative; the boolean condition
is the source's `vouch_payload.len() == 32 || v_pk == self.remote_session_key`
verbatim. An opened outer plaintext of length ≥ 60 that is not an
`initiateBody` stands for bytes whose 56.. tail is not a ciphertext the
inner open could accept, and fails like the source's failed inner open. -/
def ServerSession.validate_initiate (s : ServerSession) (initiate : Frame) :
    Outcome PK :=
  match box_open initiate.payload initiate.nonce s.remote_session_key
      s.local_session_keypair.secret_key with
  | some initiate_payload =>
    if initiate_payload.length < 60 then .err .InvalidInitiateFrame
    else
      match initiate_payload with
      | .initiateBody pk v_nonce vp bn bk =>
        match box_open ⟨vp, bn, bk⟩ v_nonce pk s.local_session_keypair.secret_key with
        | some vouch_payload =>
          match vouch_payload.from_slice32 with
          | none => .panicked
          | some v_pk =>
            if vouch_payload.length = 32 ∨ v_pk = s.remote_session_key then .ok pk
            else .err .InvalidInitiateFrame
        | none => .err .InvalidInitiateFrame
      | _ => .err .InvalidInitiateFrame
  | none => .err .InvalidInitiateFrame

/-- `ServerSession::make_ready` (`src/session.rs` lines 179-205); `now` is
`Utc::now()` at the call and `n` the nonce drawn inside `seal_msg`. -/
def ServerSession.make_ready (s : ServerSession) (initiate : Frame)
    (client_identity_key : PK) (now : Int) (n : Nat) :
    Except WhisperError (EstablishedSession × Frame) × ServerSession :=
  if s.state ≠ .Initiated ∨ initiate.kind ≠ .Initiate then
    (.error .InvalidSessionState, s)
  else if now - s.created_at > HANDSHAKE_DURATION then (.error .ExpiredSession, s)
  else
    let s' := { s with state := .Ready, remote_identity_key := some client_identity_key }
    let session := EstablishedSession.new s.remote_session_key s.local_session_keypair now
    let np := session.seal_msg (.raw READY_PAYLOAD) n
    (.ok (session, ⟨initiate.id, np.1, .Ready, np.2⟩), s')

/-- `ClientSession::new` (`src/session.rs` lines 222-234). -/
def ClientSession.new (local_identity_keypair : KeyPair) (remote_identity_key : PK)
    (now : Int) (sessionSeed : Nat) : ClientSession :=
  { expire_at := now + HANDSHAKE_DURATION
    created_at := now
    local_session_keypair := KeyPair.new sessionSeed
    local_identity_keypair := local_identity_keypair
    remote_session_key := none
    remote_identity_key := remote_identity_key
    state := .Fresh }

/-- `ClientSession::make_hello` (`src/session.rs` lines 236-249): note the
source checks no state at all — it unconditionally sets `Initiated` and
returns a frame. -/
def ClientSession.make_hello (c : ClientSession) (n : Nat) : Frame × ClientSession :=
  let payload := box_seal (.raw NULL_BYTES) n c.remote_identity_key
    c.local_session_keypair.secret_key
  (⟨c.local_session_keypair.public_key, n, .Hello, payload⟩,
    { c with state := .Initiated })

/-- `ClientSession::make_initiate` (`src/session.rs` lines 253-289), with
`make_vouch` (lines 308-321) inlined; `vn` is the vouch nonce and `n` the
outer box nonce. -/
def ClientSession.make_initiate (c : ClientSession) (welcome : Frame) (vn n : Nat) :
    Except WhisperError Frame × ClientSession :=
  if c.state ≠ .Initiated ∨ welcome.kind ≠ .Welcome then
    (.error .InvalidSessionState, c)
  else
    match box_open welcome.payload welcome.nonce c.remote_identity_key
        c.local_session_keypair.secret_key with
    | some server_pk =>
      match server_pk.from_slice32 with
      | some key =>
        let c' := { c with remote_session_key := some key }
        let vouch_box := box_seal (.keyBytes c.local_session_keypair.public_key) vn key
          c.local_identity_keypair.secret_key
        let initiate_box : Plain := .initiateBody c.local_identity_keypair.public_key vn
          vouch_box.plain vouch_box.nonce vouch_box.key
        let payload := box_seal initiate_box n key c.local_session_keypair.secret_key
        (.ok ⟨welcome.id, n, .Initiate, payload⟩, c')
      | none => (.error .InvalidWelcomeFrame, { c with state := .Error })
    | none => (.error .DecryptionFailed, { c with state := .Error })

/-- `ClientSession::read_ready` (`src/session.rs` lines 292-306): the
`self.remote_session_key.unwrap()` is the `panicked` alternative; note that
no failure branch touches `state`. -/
def ClientSession.read_ready (c : ClientSession) (ready : Frame) (now : Int) :
    Outcome EstablishedSession × ClientSession :=
  if c.state ≠ .Initiated ∨ ready.kind ≠ .Ready then (.err .InvalidSessionState, c)
  else
    match c.remote_session_key with
    | none => (.panicked, c)
    | some rk =>
      let session := EstablishedSession.new rk c.local_session_keypair now
      match session.read_msg ready with
      | .error e => (.err e, c)
      | .ok msg =>
        if msg = .raw READY_PAYLOAD then (.ok session, { c with state := .Ready })
        else (.err .InvalidReadyFrame, c)

/-- `Session::is_expired` for `ClientSession` (`src/session.rs` line 407). -/
def ClientSession.is_expired (c : ClientSession) (now : Int) : Bool :=
  c.expire_at < now

/-- `Session::id` for `ClientSession` (`src/session.rs` line 409). -/
def ClientSession.sid (c : ClientSession) : PK := c.local_session_keypair.public_key

/-- `Session::is_expired` for `ServerSession` (`src/session.rs` line 413). -/
def ServerSession.is_expired (s : ServerSession) (now : Int) : Bool :=
  s.expire_at < now

/-- `Session::id` for `ServerSession` (`src/session.rs` line 415). -/
def ServerSession.sid (s : ServerSession) : PK := s.remote_session_key

/-! ## The four-step exchange, composed as in the test harness
(`src/session.rs` lines 430-454, `handshake()`): Hello, Welcome, Initiate,
`validate_initiate`, Ready, `read_ready`. -/

/-- Run the full handshake between `ClientSession::new(C_id, S_id.pk)` and
`ServerSession::new(S_id, client.id())`. `ci, si` are the identity scalars,
`cs, ss` the ephemeral session scalars drawn inside the two `new` calls,
`n1, n2, vn, n3, n4` the five nonces drawn along the way, and `t` the clock
(held fixed during the exchange). Returns the client's and the server's
`EstablishedSession` when every step succeeds. -/
def runHandshake (ci si cs ss n1 n2 vn n3 n4 : Nat) (t : Int) :
    Option (EstablishedSession × EstablishedSession) :=
  let cid := KeyPair.new ci
  let sid := KeyPair.new si
  let client := ClientSession.new cid sid.public_key t cs
  let server := ServerSession.new sid client.sid t ss
  let hc := client.make_hello n1
  match server.make_welcome hc.1 n2 with
  | (.error _, _) => none
  | (.ok welcome, server) =>
    match hc.2.make_initiate welcome vn n3 with
    | (.error _, _) => none
    | (.ok initiate, client) =>
      match server.validate_initiate initiate with
      | .err _ => none
      | .panicked => none
      | .ok client_identity_key =>
        match server.make_ready initiate client_identity_key t n4 with
        | (.error _, _) => none
        | (.ok (serverEst, ready), _) =>
          match client.read_ready ready t with
          | (.ok clientEst, _) => some (clientEst, serverEst)
          | (_, _) => none

/-! ## Helper lemmas. -/

/-- The wire tag of each kind parses back to that kind. -/
theorem FrameKind.fromByte_toByte (k : FrameKind) :
    FrameKind.fromByte k.toByte = some k := by
  cases k <;> rfl

/-- A byte outside the whitelisted tag set parses to `none`. -/
theorem FrameKind.fromByte_eq_none (b : Nat)
    (hb : b ∉ ([1, 2, 3, 4, 5, 6, 7, 255] : List Nat)) :
    FrameKind.fromByte b = none := by
  simp only [List.mem_cons, List.not_mem_nil, or_false, not_or] at hb
  obtain ⟨h1, h2, h3, h4, h5, h6, h7, h8⟩ := hb
  unfold FrameKind.fromByte
  split <;> simp_all

/-- C6: for every well-formed frame `F` (32-byte id, 24-byte nonce,
recognized kind, any payload), decoding the encoding of `F` yields exactly
`F`, and the encoded byte length is `57 + len(F.payload)`. -/
theorem c6_frame_roundtrip (f : Wire.Frame) (hid : f.id.length = 32)
    (hnonce : f.nonce.length = 24) :
    Wire.Frame.from_slice f.pack = .ok f ∧
      f.pack.length = 57 + f.payload.length := by
  obtain ⟨id, nonce, kind, payload⟩ := f
  simp only at hid hnonce
  have hlen : (Wire.Frame.pack ⟨id, nonce, kind, payload⟩).length
      = 57 + payload.length := by
    simp [Wire.Frame.pack, hid, hnonce]
    omega
  refine ⟨?_, hlen⟩
  unfold Wire.Frame.from_slice
  rw [if_neg (by omega)]
  have hdrop32 : (Wire.Frame.pack ⟨id, nonce, kind, payload⟩).drop 32
      = nonce ++ ([kind.toByte] ++ payload) := by
    simp [Wire.Frame.pack, List.append_assoc]
    rw [List.drop_append_of_le_length (by omega), List.drop_eq_nil_of_le (by omega)]
    simp [hid]
  have htake32 : (Wire.Frame.pack ⟨id, nonce, kind, payload⟩).take 32 = id := by
    simp [Wire.Frame.pack, List.append_assoc]
    rw [List.take_append_of_le_length (by omega), List.take_of_length_le (by omega)]
  simp only [hdrop32, htake32]
  rw [if_neg (by simp [hnonce])]
  rw [List.take_append_of_le_length (by omega), List.take_of_length_le (by omega),
    List.drop_append_of_le_length (by omega), List.drop_eq_nil_of_le (by omega)]
  simp [FrameKind.fromByte_toByte]

/-- C7: decoding an input shorter than 57 bytes fails with
`IncompleteFrame`; decoding an input of length ≥ 57 whose byte 56 is not a
recognized tag (one of 1..7 or 255) fails with `BadFrame`. -/
theorem c7_decode_failures (i : List Nat) :
    (i.length < 57 → Wire.Frame.from_slice i = .error .IncompleteFrame) ∧
    (57 ≤ i.length → i.getD 56 0 ∉ ([1, 2, 3, 4, 5, 6, 7, 255] : List Nat) →
      Wire.Frame.from_slice i = .error .BadFrame) := by
  constructor
  · intro hlt
    unfold Wire.Frame.from_slice
    by_cases h32 : i.length < 32
    · rw [if_pos h32]
    · rw [if_neg h32]
      by_cases h56 : (i.drop 32).length < 24
      · simp only [if_pos h56]
      · simp only [if_neg h56]
        have : (i.drop 32).drop 24 = [] := by
          apply List.drop_eq_nil_of_le
          simp
          omega
        simp [this]
  · intro hge hb
    unfold Wire.Frame.from_slice
    rw [if_neg (by omega)]
    rw [if_neg (by simp; omega)]
    have hdrop : (i.drop 32).drop 24 = i.drop 56 := by
      rw [List.drop_drop]
    have hne : i.drop 56 ≠ [] := by
      intro h
      have := congrArg List.length h
      simp at this
      omega
    obtain ⟨b, rest, hcons⟩ := List.exists_cons_of_ne_nil hne
    have hsome : i[56]? = some b := by
      have h0 : (i.drop 56)[0]? = some b := by rw [hcons]; simp
      rw [List.getElem?_drop] at h0
      simpa using h0
    have hb56 : i.getD 56 0 = b := by
      rw [List.getD_eq_getElem?_getD, hsome]
      rfl
    simp [hdrop, hcons, FrameKind.fromByte_eq_none b (hb56 ▸ hb)]

/-- Witness for C6: the spec's pack/unpack scenario (kind Hello, 3-byte
payload) at concrete id and nonce bytes; the encoding is 60 bytes and
decodes back. -/
theorem c6_frame_roundtrip_witness :
    (List.replicate 32 0 : List Nat).length = 32 ∧
    (List.replicate 24 1 : List Nat).length = 24 ∧
    (Wire.Frame.from_slice
        (Wire.Frame.pack ⟨List.replicate 32 0, List.replicate 24 1, .Hello, [0, 0, 0]⟩) =
      .ok ⟨List.replicate 32 0, List.replicate 24 1, .Hello, [0, 0, 0]⟩ ∧
      (Wire.Frame.pack
          ⟨List.replicate 32 0, List.replicate 24 1, .Hello, [0, 0, 0]⟩).length =
        57 + ([0, 0, 0] : List Nat).length) :=
  ⟨by decide, by decide,
    c6_frame_roundtrip ⟨List.replicate 32 0, List.replicate 24 1, .Hello, [0, 0, 0]⟩
      (by decide) (by decide)⟩

/-- Witness for C7: the spec's concrete scenarios — `[1, 2, 3]` is
incomplete, and 57 bytes whose byte 56 is 13 are a bad frame. -/
theorem c7_decode_failures_witness :
    (([1, 2, 3] : List Nat).length < 57 ∧
      Wire.Frame.from_slice [1, 2, 3] = .error .IncompleteFrame) ∧
    (57 ≤ (List.replicate 56 0 ++ [13] : List Nat).length ∧
      (List.replicate 56 0 ++ [13] : List Nat).getD 56 0 ∉
        ([1, 2, 3, 4, 5, 6, 7, 255] : List Nat) ∧
      Wire.Frame.from_slice (List.replicate 56 0 ++ [13]) = .error .BadFrame) :=
  ⟨⟨by decide, (c7_decode_failures [1, 2, 3]).1 (by decide)⟩,
   ⟨by decide, by decide,
     (c7_decode_failures (List.replicate 56 0 ++ [13])).2 (by decide) (by decide)⟩⟩

set_option maxRecDepth 8000 in
/-- C5: for every pair of identity keypairs (and whatever ephemeral scalars
and nonces the RNG yields, at any fixed clock), the four-step exchange
between `ClientSession::new(C_id, S_id.pk)` and
`ServerSession::new(S_id, client.id())` succeeds, and the two resulting
`EstablishedSession`s hold equal precomputed shared secrets (commutativity
of `precompute`). -/
theorem c5_handshake_success (ci si cs ss n1 n2 vn n3 n4 : Nat) (t : Int) :
    ∃ ce se, runHandshake ci si cs ss n1 n2 vn n3 n4 t = some (ce, se) ∧
      ce.session_secret = se.session_secret := by
  refine ⟨⟨PK.gen cs, t + SESSION_DURATION, .dh (min cs ss) (max cs ss)⟩,
          ⟨PK.gen ss, t + SESSION_DURATION, .dh (min cs ss) (max cs ss)⟩, ?_, rfl⟩
  simp [runHandshake, ClientSession.new, ServerSession.new, ClientSession.make_hello,
    ServerSession.make_welcome, ClientSession.make_initiate,
    ServerSession.validate_initiate, ServerSession.make_ready,
    ClientSession.read_ready, ClientSession.sid, EstablishedSession.new,
    EstablishedSession.seal_msg, EstablishedSession.read_msg, KeyPair.new,
    box_seal, box_open, seal_precomputed, open_precomputed, precompute,
    Plain.from_slice32, Plain.length, Nat.min_comm, Nat.max_comm, sub_self,
    HANDSHAKE_DURATION, SESSION_DURATION, NULL_BYTES]

/-! ## validate_initiate: the vouch condition and the panic surface. -/

/-- `PublicKey::from_slice` on a plaintext fails exactly when the plaintext
is not 32 bytes. -/
theorem Plain.from_slice32_eq_none_iff (p : Plain) :
    p.from_slice32 = none ↔ p.length ≠ 32 := by
  cases p with
  | raw bs => simp only [Plain.from_slice32, Plain.length]; split <;> simp_all
  | keyBytes k => simp [Plain.from_slice32, Plain.length]
  | initiateBody cid vn vp bn bk =>
    simp only [Plain.from_slice32, Plain.length]
    constructor
    · intro _; omega
    · intro _; trivial

/-- A server session under validation: identity scalar 1, ephemeral session
scalar 3, client ephemeral key `PK.gen 2`. -/
def c1Server : ServerSession := ServerSession.new (KeyPair.new 1) (PK.gen 2) 0 3

/-- A forged Initiate frame: well-formed outer box from the client session
key to the server session key, carrying client identity `PK.gen 0`, and a
vouch box (sealed under the client identity scalar) whose 32-byte plaintext
is `PK.gen 99` — not the server's ephemeral key `PK.gen 3`. -/
def c1Initiate : Frame :=
  ⟨PK.gen 2, 13, .Initiate,
    box_seal (.initiateBody (PK.gen 0) 12 (.keyBytes (PK.gen 99)) 12 (.dh 0 3))
      13 (PK.gen 3) 2⟩

/-- C1: the source's `vouch_payload.len() == 32 || v_pk == self.remote_session_key`
(an OR where the spec mandates AND) accepts any 32-byte vouch plaintext:
on `c1Initiate`, whose vouch plaintext `PK.gen 99` differs from the
server's own ephemeral key `S_session.pk = PK.gen 3` (and from everything
else), `validate_initiate` succeeds with the client identity key instead of
failing with `InvalidInitiateFrame`. -/
theorem c1_or_accepts_forged_vouch :
    c1Server.validate_initiate c1Initiate = .ok (PK.gen 0) ∧
      (Plain.keyBytes (PK.gen 99)).length = 32 ∧
      (PK.gen 99 : PK) ≠ c1Server.local_session_keypair.public_key := by
  decide

/-- A server session for the totality analysis: same shape as `c1Server`. -/
def c9Server : ServerSession := ServerSession.new (KeyPair.new 1) (PK.gen 2) 0 3

/-- An Initiate frame whose outer box opens to a 105-byte body and whose
inner vouch box opens to a 33-byte plaintext. -/
def c9Initiate : Frame :=
  ⟨PK.gen 2, 13, .Initiate,
    box_seal (.initiateBody (PK.gen 0) 12 (.raw (List.replicate 33 0)) 12 (.dh 0 3))
      13 (PK.gen 3) 2⟩

/-- C9 counterexample: on `c9Initiate` the source reaches
`PublicKey::from_slice(&vouch_payload).expect("Wrong Size Key!!!")` with a
33-byte vouch plaintext and panics, so `validate_initiate` is not total at
the public interface. -/
theorem c9_validate_initiate_panics :
    c9Server.validate_initiate c9Initiate = .panicked ∧
      (Plain.raw (List.replicate 33 0)).length ≠ 32 := by
  decide

/-- The inner vouch plaintext `validate_initiate` reaches before its
`.expect`: the outer box opened, the ≥ 60-byte body parsed, and the vouch
box opened. -/
def ServerSession.vouchPlain (s : ServerSession) (initiate : Frame) : Option Plain :=
  match box_open initiate.payload initiate.nonce s.remote_session_key
      s.local_session_keypair.secret_key with
  | some initiate_payload =>
    if initiate_payload.length < 60 then none
    else
      match initiate_payload with
      | .initiateBody pk v_nonce vp bn bk =>
        box_open ⟨vp, bn, bk⟩ v_nonce pk s.local_session_keypair.secret_key
      | _ => none
  | none => none

/-- C9 amended: `validate_initiate` returns `Ok` or `Err` — except that it
panics exactly when the inner vouch box opens to a plaintext whose length
is not 32. -/
theorem c9_validate_initiate_panic_iff (s : ServerSession) (f : Frame) :
    s.validate_initiate f = .panicked ↔
      ∃ p, s.vouchPlain f = some p ∧ p.length ≠ 32 := by
  unfold ServerSession.validate_initiate ServerSession.vouchPlain
  cases hout : box_open f.payload f.nonce s.remote_session_key
      s.local_session_keypair.secret_key with
  | none => simp
  | some ip =>
    by_cases hlen : ip.length < 60
    · simp [hlen]
    · simp only [if_neg hlen]
      cases ip with
      | raw bs => simp
      | keyBytes k => simp
      | initiateBody pk vn vp bn bk =>
        cases hin : box_open ⟨vp, bn, bk⟩ vn pk s.local_session_keypair.secret_key with
        | none => simp [hin]
        | some vouch =>
          cases hfs : vouch.from_slice32 with
          | none =>
            simp only [hin, hfs, Option.some.injEq]
            constructor
            · intro _
              exact ⟨vouch, rfl, (Plain.from_slice32_eq_none_iff vouch).mp hfs⟩
            · intro _; trivial
          | some v_pk =>
            have h32 : vouch.length = 32 := by
              by_contra h
              rw [(Plain.from_slice32_eq_none_iff vouch).mpr h] at hfs
              cases hfs
            simp only [hin, hfs]
            simp [h32]

/-- A client session that has sent Hello (state `Initiated`) but has not yet
processed a Welcome, so `remote_session_key` is still unset. -/
def c10Client : ClientSession :=
  ((ClientSession.new (KeyPair.new 0) (PK.gen 1) 0 2).make_hello 5).2

/-- C10 counterexample: feeding any Ready-kind frame to a client that is
`Initiated` with `remote_session_key = None` (Hello sent, Initiate not yet
made) reaches `self.remote_session_key.unwrap()` and panics, so
`read_ready` is not total at the public interface. -/
theorem c10_read_ready_panics :
    (c10Client.read_ready
        ⟨PK.gen 2, 7, .Ready, seal_precomputed (.raw READY_PAYLOAD) 7 (.dh 2 3)⟩ 0).1
      = .panicked ∧
      c10Client.state = .Initiated ∧ c10Client.remote_session_key = none := by
  decide

/-- C10 amended: `read_ready` returns `Ok` or `Err` — except that it panics
exactly when the state is `Initiated`, the frame kind is `Ready`, and
`remote_session_key` has not been set. -/
theorem c10_read_ready_panic_iff (c : ClientSession) (f : Frame) (now : Int) :
    (c.read_ready f now).1 = .panicked ↔
      (c.state = .Initiated ∧ f.kind = .Ready ∧ c.remote_session_key = none) := by
  unfold ClientSession.read_ready
  by_cases h : c.state ≠ .Initiated ∨ f.kind ≠ .Ready
  · rw [if_pos h]
    simp only []
    constructor
    · intro hc; cases hc
    · rintro ⟨h1, h2, _⟩
      rcases h with h | h
      · exact absurd h1 h
      · exact absurd h2 h
  · rw [if_neg h]
    push_neg at h
    obtain ⟨h1, h2⟩ := h
    cases hr : c.remote_session_key with
    | none => simp [h1, h2]
    | some rk =>
      simp only [h1, h2, hr, true_and]
      cases hm : (EstablishedSession.new rk c.local_session_keypair now).read_msg f with
      | error e => simp
      | ok msg =>
        by_cases hready : msg = .raw READY_PAYLOAD
        · simp [hready]
        · simp [hready]

/-! ## State transitions on handshake failure. -/

/-- A client session mid-handshake: Initiated, Welcome processed, expecting
a Ready sealed under `precompute(PK.gen 3, 2) = dh 2 3`. -/
def c3Client : ClientSession :=
  { ClientSession.new (KeyPair.new 0) (PK.gen 1) 0 2 with
      state := .Initiated, remote_session_key := some (PK.gen 3) }

/-- C3 counterexample: a Ready frame whose payload does not open under the
session secret makes `read_ready` fail with `DecryptionFailed`, yet the
session state stays `Initiated` — it does not transition to `Error` as the
claim requires. -/
theorem c3_read_ready_failure_keeps_state :
    (c3Client.read_ready
        ⟨PK.gen 2, 7, .Ready, seal_precomputed (.raw READY_PAYLOAD) 7 (.dh 50 60)⟩ 0).1
      = .err .DecryptionFailed ∧
      (c3Client.read_ready
          ⟨PK.gen 2, 7, .Ready, seal_precomputed (.raw READY_PAYLOAD) 7 (.dh 50 60)⟩ 0).2.state
        = .Initiated := by
  decide

/-- C3 amended: `make_welcome` and `make_initiate` do transition the session
to `Error` on their decryption/structural failures, but `read_ready` leaves
the session entirely unchanged on **every** failure (`DecryptionFailed`,
`InvalidReadyFrame`, `InvalidSessionState` alike). -/
theorem c3_error_state_on_handshake_failure :
    (∀ (s : ServerSession) (hello : Frame) (n : Nat) (e : WhisperError),
      (s.make_welcome hello n).1 = .error e →
      e = .DecryptionFailed ∨ e = .InvalidHelloFrame →
      (s.make_welcome hello n).2.state = .Error) ∧
    (∀ (c : ClientSession) (welcome : Frame) (vn n : Nat) (e : WhisperError),
      (c.make_initiate welcome vn n).1 = .error e →
      e = .DecryptionFailed ∨ e = .InvalidWelcomeFrame →
      (c.make_initiate welcome vn n).2.state = .Error) ∧
    (∀ (c : ClientSession) (ready : Frame) (now : Int) (e : WhisperError),
      (c.read_ready ready now).1 = .err e → (c.read_ready ready now).2 = c) := by
  refine ⟨?_, ?_, ?_⟩
  · intro s hello n e h1 h2
    unfold ServerSession.make_welcome at h1 ⊢
    by_cases hst : s.state ≠ .Fresh ∨ hello.kind ≠ .Hello
    · rw [if_pos hst] at h1
      simp at h1
      rcases h2 with h2 | h2 <;> simp [h2] at h1
    · rw [if_neg hst] at h1 ⊢
      cases hout : box_open hello.payload hello.nonce hello.id
          s.local_identity_keypair.secret_key with
      | none => simp [hout]
      | some payload =>
        simp only [hout] at h1 ⊢
        by_cases hl : payload.length ≠ 256
        · simp [hl]
        · simp [hl] at h1
  · intro c welcome vn n e h1 h2
    unfold ClientSession.make_initiate at h1 ⊢
    by_cases hst : c.state ≠ .Initiated ∨ welcome.kind ≠ .Welcome
    · rw [if_pos hst] at h1
      simp at h1
      rcases h2 with h2 | h2 <;> simp [h2] at h1
    · rw [if_neg hst] at h1 ⊢
      cases hout : box_open welcome.payload welcome.nonce c.remote_identity_key
          c.local_session_keypair.secret_key with
      | none => simp [hout]
      | some server_pk =>
        simp only [hout] at h1 ⊢
        cases hfs : server_pk.from_slice32 with
        | none => simp [hfs]
        | some key =>
          simp [hfs] at h1
  · intro c ready now e h1
    unfold ClientSession.read_ready at h1 ⊢
    by_cases hst : c.state ≠ .Initiated ∨ ready.kind ≠ .Ready
    · rw [if_pos hst]
    · rw [if_neg hst] at h1 ⊢
      cases hr : c.remote_session_key with
      | none => simp [hr] at h1
      | some rk =>
        simp only [hr] at h1 ⊢
        cases hm : (EstablishedSession.new rk c.local_session_keypair now).read_msg ready with
        | error e2 => simp [hm]
        | ok msg =>
          simp only [hm] at h1 ⊢
          by_cases hready : msg = .raw READY_PAYLOAD
          · simp [hready] at h1
          · simp [hready]

/-- Witness for C3: a Fresh server given a Hello frame whose box does not
open fails with `DecryptionFailed` and its state is `Error` afterwards; the
`read_ready` of the counterexample session is unchanged by its failure. -/
theorem c3_error_state_witness :
    ((ServerSession.new (KeyPair.new 1) (PK.gen 2) 0 3).make_welcome
        ⟨PK.gen 2, 5, .Hello, box_seal (.raw NULL_BYTES) 6 (PK.gen 1) 2⟩ 9).2.state
      = .Error ∧
    (c3Client.read_ready
        ⟨PK.gen 2, 7, .Ready, seal_precomputed (.raw READY_PAYLOAD) 7 (.dh 50 60)⟩ 0).2
      = c3Client :=
  ⟨c3_error_state_on_handshake_failure.1
      (ServerSession.new (KeyPair.new 1) (PK.gen 2) 0 3)
      ⟨PK.gen 2, 5, .Hello, box_seal (.raw NULL_BYTES) 6 (PK.gen 1) 2⟩ 9
      .DecryptionFailed (by decide) (by decide),
   c3_error_state_on_handshake_failure.2.2 c3Client
      ⟨PK.gen 2, 7, .Ready, seal_precomputed (.raw READY_PAYLOAD) 7 (.dh 50 60)⟩ 0
      .DecryptionFailed (by decide)⟩

/-! ## make_hello and expiry. -/

/-- A client session already in the terminal `Error` state. -/
def c4ErrClient : ClientSession :=
  { ClientSession.new (KeyPair.new 0) (PK.gen 1) 0 2 with state := .Error }

/-- C4 counterexample: `make_hello` on a session in state `Error` is not
rejected — the source checks no state at all — and it mutates the session
to `Initiated`, returning a Hello frame. -/
theorem c4_make_hello_in_error_state :
    c4ErrClient.state = .Error ∧
      (c4ErrClient.make_hello 5).2.state = .Initiated ∧
      (c4ErrClient.make_hello 5).1.kind = .Hello := by
  decide

/-- C4 amended: `make_hello` performs no state check: from **every** state
(Fresh, Initiated, Ready, or the terminal Error) it succeeds, returns a
Hello frame carrying the client's ephemeral public key, and sets the state
to `Initiated`, leaving all other fields unchanged. -/
theorem c4_make_hello_always_initiates (c : ClientSession) (n : Nat) :
    (c.make_hello n).2 = { c with state := .Initiated } ∧
      (c.make_hello n).1.kind = .Hello ∧
      (c.make_hello n).1.id = c.local_session_keypair.public_key := by
  refine ⟨rfl, rfl, rfl⟩

/-- C8 counterexample: `is_expired` is the strict comparison
`expire_at < now`, so at the boundary instant `now = expire_at` (here
`expire_at = created_at + HANDSHAKE_DURATION = 3`) it returns `false`,
while the claim requires `true` whenever `now ≥ expire_at`. -/
theorem c8_boundary_instant_not_expired :
    (ClientSession.new (KeyPair.new 0) (PK.gen 1) 0 2).expire_at = 3 ∧
      (ClientSession.new (KeyPair.new 0) (PK.gen 1) 0 2).is_expired 3 = false := by
  decide

/-- C8 amended: for every session type, `is_expired` returns true iff the
current time is **strictly** greater than `expire_at`; immediately after
construction it is false; and an expired `EstablishedSession` fails
`make_message` (hence `make_request` / `make_response` /
`make_notification`) with `ExpiredSession` without sealing anything. -/
theorem c8_expiry_semantics :
    (∀ (c : ClientSession) (now : Int), c.is_expired now = true ↔ c.expire_at < now) ∧
    (∀ (s : ServerSession) (now : Int), s.is_expired now = true ↔ s.expire_at < now) ∧
    (∀ (e : EstablishedSession) (now : Int), e.is_expired now = true ↔ e.expire_at < now) ∧
    (∀ (idkp : KeyPair) (rk : PK) (t : Int) (seed : Nat),
      (ClientSession.new idkp rk t seed).is_expired t = false) ∧
    (∀ (idkp : KeyPair) (rk : PK) (t : Int) (seed : Nat),
      (ServerSession.new idkp rk t seed).is_expired t = false) ∧
    (∀ (rk : PK) (kp : KeyPair) (t : Int),
      (EstablishedSession.new rk kp t).is_expired t = false) ∧
    (∀ (e : EstablishedSession) (data : Plain) (kind : FrameKind) (now : Int) (n : Nat),
      e.is_expired now = true → e.make_message data kind now n = .error .ExpiredSession) := by
  refine ⟨?_, ?_, ?_, ?_, ?_, ?_, ?_⟩
  · intro c now; simp [ClientSession.is_expired]
  · intro s now; simp [ServerSession.is_expired]
  · intro e now; simp [EstablishedSession.is_expired]
  · intro idkp rk t seed
    simp [ClientSession.is_expired, ClientSession.new, HANDSHAKE_DURATION]
  · intro idkp rk t seed
    simp [ServerSession.is_expired, ServerSession.new, HANDSHAKE_DURATION]
  · intro rk kp t
    simp [EstablishedSession.is_expired, EstablishedSession.new, SESSION_DURATION]
  · intro e data kind now n h
    unfold EstablishedSession.make_message
    rw [h]
    rfl

/-- Witness for C8: an `EstablishedSession` whose `expire_at` is 10 is
expired at time 11 and `make_message` then fails with `ExpiredSession`. -/
theorem c8_expiry_semantics_witness :
    (⟨PK.gen 0, 10, .dh 0 1⟩ : EstablishedSession).is_expired 11 = true ∧
      (⟨PK.gen 0, 10, .dh 0 1⟩ : EstablishedSession).make_message (.raw [1]) .Request 11 5
        = .error .ExpiredSession :=
  ⟨by decide,
    c8_expiry_semantics.2.2.2.2.2.2 ⟨PK.gen 0, 10, .dh 0 1⟩ (.raw [1]) .Request 11 5
      (by decide)⟩

set_option maxRecDepth 8000 in
/-- C2: evaluation of the full handshake at identity scalars 0, 1 and
ephemeral scalars 2 (client), 3 (server). The client's `EstablishedSession`
id is the client ephemeral key `PK.gen 2`, but the server's is the
**server's** ephemeral key `PK.gen 3` (because `EstablishedSession::new`
sets `id := local_session_keypair.public_key` and `make_ready` passes the
server's own session keypair), and the Response frame the server then makes
carries that id — contradicting the claim (and the doc of `Session::id`)
that both sides use the client's ephemeral key. -/
theorem c2_server_established_id_is_server_ephemeral :
    (runHandshake 0 1 2 3 10 11 12 13 14 0).map (fun p => (p.1.id, p.2.id)) =
        some (PK.gen 2, PK.gen 3) ∧
      (PK.gen 3 : PK) ≠ PK.gen 2 ∧
      ((runHandshake 0 1 2 3 10 11 12 13 14 0).map (fun p =>
          (p.2.make_response (.raw [1]) 0 99).toOption.map Frame.id)) =
        some (some (PK.gen 3)) := by
  decide
